import Mathlib

/-!
Shallow embedding of `gui_auto.py` (visual target acquisition loop).

The pure control flow of `point_monitor_index`, `_load_templates` and
`find_and_click` is translated directly.  External collaborators
(`cv2.imread`, `mss` capture, `cv2.matchTemplate` + `cv2.minMaxLoc`,
`time.monotonic`, `pyautogui`) are modelled as oracle fields of an `Env`
record; every observable effect (a call to a collaborator or a printed
line) is recorded as an `Event` so that theorems can speak about what work
the loop performed and what it reported.  Similarity scores and clock
readings are modelled as exact rationals; Python's `int()` truncation of a
float is modelled as truncation of the corresponding rational toward zero.
-/

namespace GuiAuto

/-- A monitor rectangle in virtual-desktop coordinates: the four keys the
code reads from each `mss` monitor dict (`gui_auto.py` lines 36-44). -/
structure Monitor where
  left : Int
  top : Int
  width : Int
  height : Int
  deriving DecidableEq, Repr

/-- An in-memory decoded image: pixel dimensions plus an abstract content
tag (the pixel payload itself is only ever consumed by the external
scorer, so it is kept opaque). `width`/`height` mirror `tpl.shape[:2]`
read as `h, w`. -/
structure Img where
  width : Nat
  height : Nat
  content : Nat
  deriving DecidableEq, Repr

/-- A loaded template entry `(path, tpl, (w, h))` as built by
`_load_templates` (line 74). -/
abbrev LTpl := String × Img × Nat × Nat

/-- The data the loop stores alongside `best_val` when it updates the best
candidate (lines 132-136): `best_loc`, `best_tpl_size`, `best_monitor`,
`best_image_name`.  In the Python code these are four separate variables
that are always assigned together and are all `None` before the first
update, so an `Option Cand` next to the running value is faithful. -/
structure Cand where
  loc : Int × Int
  tplSize : Nat × Nat
  monitor : Monitor
  imageName : String
  deriving DecidableEq, Repr

/-- Running state of the best-candidate scan of one iteration:
`best_val` (initialised to `-1.0`, line 107) and the candidate data
(`none` until the first update, lines 108-111). -/
structure BestState where
  val : ℚ
  cand : Option Cand
  deriving DecidableEq, Repr

/-- Observable effects of one `find_and_click` call: calls to external
collaborators and printed diagnostics, in program order. -/
inductive Event where
  | infoSearch (images : List String)
  | warnRead (path : String)
  | errNoImages
  | grabCall (m : Monitor)
  | warnGrab (m : Monitor)
  | scoreCall (name : String)
  | warnScore (name : String)
  | matchLog (name : String) (monIdx : Nat) (score : ℚ) (cx cy : Int)
  | moveTo (x y : Int)
  | clickCall
  | clickLog (x y : Int)
  | sleepSettle
  | pressKey (c : Char)
  | keyLog
  | warnClickFail
  | warnKeyFail
  | sleepRetry (retry_ms : Int)
  | infoNotFound
  deriving DecidableEq, Repr

/-- Oracles for the external collaborators of one search call.
`imread p = none` models `cv2.imread` returning `None` or raising;
`grab k m = none` models `sct.grab` raising during iteration `k`;
`matchT frame tpl = none` models `cv2.matchTemplate`/`cv2.minMaxLoc`
raising (e.g. template larger than the frame), and `some (v, x, y)`
models a successful call with `max_val = v`, `max_loc = (x, y)`;
`elapsedMs k` is the value of `(time.monotonic() - start) * 1000` at the
`k`-th evaluation of the `while` condition; `enumMonitors t` is the OS
monitor list at time-step `t` (the code reads it once, at `t = 0`);
`moveOk`/`clickOk`/`pressOk` tell whether the corresponding `pyautogui`
call raises. -/
structure Env where
  imread : String → Option Img
  enumMonitors : Nat → List Monitor
  grab : Nat → Monitor → Option Img
  matchT : Img → Img → Option (ℚ × Int × Int)
  elapsedMs : Nat → ℚ
  moveOk : Bool
  clickOk : Bool
  pressOk : Bool

/-- `_load_templates` (lines 65-77): decode each path; a failed decode
prints a warning naming the path and is skipped; successes are collected
in order together with their `(w, h)` dimensions. -/
def load_templates (imread : String → Option Img) : List String → List LTpl × List Event
  | [] => ([], [])
  | path :: rest =>
    match imread path with
    | none =>
      let r := load_templates imread rest
      (r.1, .warnRead path :: r.2)
    | some tpl =>
      let r := load_templates imread rest
      ((path, tpl, tpl.width, tpl.height) :: r.1, r.2)

/-- Inner template loop of one iteration (lines 121-136): score every
loaded template against the captured frame of monitor `mon`; a scoring
failure warns and skips the pairing; a successful score updates the best
state exactly when `max_val > best_val` (strict, line 131). -/
def templLoop (matchT : Img → Img → Option (ℚ × Int × Int)) (mon : Monitor) (frame : Img) :
    List LTpl → BestState → BestState × List Event
  | [], b => (b, [])
  | (name, tpl, tw, th) :: rest, b =>
    match matchT frame tpl with
    | none =>
      let r := templLoop matchT mon frame rest b
      (r.1, .scoreCall name :: .warnScore name :: r.2)
    | some (maxVal, lx, ly) =>
      let b1 := if maxVal > b.val then { val := maxVal, cand := some ⟨(lx, ly), (tw, th), mon, name⟩ }
                else b
      let r := templLoop matchT mon frame rest b1
      (r.1, .scoreCall name :: r.2)

/-- Monitor loop of one iteration (lines 113-136): grab each monitor in
order; a failed grab warns and skips that monitor; a captured frame is
scored against every template. -/
def monLoop (grabK : Monitor → Option Img) (matchT : Img → Img → Option (ℚ × Int × Int))
    (tpls : List LTpl) : List Monitor → BestState → BestState × List Event
  | [], b => (b, [])
  | mon :: rest, b =>
    match grabK mon with
    | none =>
      let r := monLoop grabK matchT tpls rest b
      (r.1, .grabCall mon :: .warnGrab mon :: r.2)
    | some frame =>
      let t := templLoop matchT mon frame tpls b
      let r := monLoop grabK matchT tpls rest t.1
      (r.1, .grabCall mon :: (t.2 ++ r.2))

/-- Truncation of a rational toward zero: the semantics of Python's
`int()` applied to a (here exactly representable) float. -/
def ratTrunc (q : ℚ) : Int := if 0 ≤ q then ⌊q⌋ else ⌈q⌉

/-- One click coordinate as computed on lines 139-140:
`int(base + off + size / 2)` with `size / 2` Python float division. -/
def centerCoord (base off : Int) (size : Nat) : Int :=
  ratTrunc ((base : ℚ) + (off : ℚ) + (size : ℚ) / 2)

/-- 1-based position of the best monitor in the active list
(lines 141-146).  The code compares with `is` (object identity); since
the best monitor is always drawn from `monitors`, this is the position of
its first occurrence, which structural equality reproduces except for
exact-duplicate geometries, where only this log index could differ. -/
def monIdxOf (monitors : List Monitor) (best : Monitor) : Nat :=
  match monitors.findIdx? (fun m => m == best) with
  | some i => i + 1
  | none => 0

/-- The action block (lines 151-163): `moveTo` is attempted first; if it
raises, the outer `except` catches and the click is never attempted; if
the click raises, the outer `except` catches and the key press is never
attempted; a failure of the key press is caught by the inner `except`.
The enclosing code returns `True` regardless (line 164). -/
def doActions (env : Env) (gx gy : Int) : List Event :=
  .moveTo gx gy ::
    (if env.moveOk then
      .clickCall ::
        (if env.clickOk then
          .clickLog gx gy :: .sleepSettle :: .pressKey 'y' ::
            (if env.pressOk then [.keyLog] else [.warnKeyFail])
        else [.warnClickFail])
    else [.warnClickFail])

/-- The `while` loop of `find_and_click` (lines 106-166), with a fuel
bound on the number of iterations (`none` = fuel exhausted before the
loop terminated).  `k` indexes the iteration (used by the clock and grab
oracles).  Each pass: check the deadline; scan all monitors and
templates; on `best_val >= threshold` with a recorded candidate, log the
match, run the action block and return `True`; otherwise sleep the retry
interval (line 166; the event records the configured `retry_ms`) and repeat.  Falling out of the loop prints the not-found line
and returns `False` (lines 168-169). -/
def searchLoop (env : Env) (templates : List LTpl) (monitors : List Monitor)
    (threshold : ℚ) (retry_ms timeout_ms : Int) : Nat → Nat → Option (Bool × List Event)
  | _, 0 => none
  | k, fuel + 1 =>
    if env.elapsedMs k < (timeout_ms : ℚ) then
      let s := monLoop (env.grab k) env.matchT templates monitors ⟨-1, none⟩
      if threshold ≤ s.1.val then
        match s.1.cand with
        | some c =>
          let gx := centerCoord c.monitor.left c.loc.1 c.tplSize.1
          let gy := centerCoord c.monitor.top c.loc.2 c.tplSize.2
          some (true, s.2 ++ .matchLog c.imageName (monIdxOf monitors c.monitor) s.1.val gx gy ::
            doActions env gx gy)
        | none =>
          (searchLoop env templates monitors threshold retry_ms timeout_ms (k + 1) fuel).map
            (fun p => (p.1, s.2 ++ .sleepRetry retry_ms :: p.2))
      else
        (searchLoop env templates monitors threshold retry_ms timeout_ms (k + 1) fuel).map
          (fun p => (p.1, s.2 ++ .sleepRetry retry_ms :: p.2))
    else
      some (false, [.infoNotFound])

/-- `find_and_click` (lines 80-169): print the search banner, load the
templates (warning per bad path), abort with `False` if none loaded,
snapshot the monitor list once, then run the search loop. -/
def find_and_click (env : Env) (images : List String) (threshold : ℚ)
    (retry_ms timeout_ms : Int) (fuel : Nat) : Option (Bool × List Event) :=
  let l := load_templates env.imread images
  if l.1.isEmpty then
    some (false, .infoSearch images :: l.2 ++ [.errNoImages])
  else
    let monitors := env.enumMonitors 0
    (searchLoop env l.1 monitors threshold retry_ms timeout_ms 0 fuel).map
      (fun p => (p.1, .infoSearch images :: l.2 ++ p.2))

/-- `point_monitor_index` helper: the `for idx, m in enumerate(monitors,
start=1)` loop of lines 50-58, with the running index explicit. -/
def pmiFrom (x y : Int) : Nat → List Monitor → Nat
  | _, [] => 0
  | idx, m :: rest =>
    if x ≥ m.left ∧ y ≥ m.top ∧ x < m.left + m.width ∧ y < m.top + m.height then idx
    else pmiFrom x y (idx + 1) rest

/-- `point_monitor_index` (lines 48-58): 1-based index of the first
monitor containing `(x, y)`, `0` if none. -/
def point_monitor_index (x y : Int) (monitors : List Monitor) : Nat :=
  pmiFrom x y 1 monitors

/- ------------------------------------------------------------------
Spec-side definitions: phrased from the specification's words, to be
compared with the code-side definitions above.
------------------------------------------------------------------- -/

/-- Spec-side: membership of a point in a monitor's half-open rectangle
`[left, left+width) × [top, top+height)` (left/top inclusive,
right/bottom exclusive). -/
def containsPt (m : Monitor) (x y : Int) : Prop :=
  m.left ≤ x ∧ x < m.left + m.width ∧ m.top ≤ y ∧ y < m.top + m.height

instance (m : Monitor) (x y : Int) : Decidable (containsPt m x y) := by
  unfold containsPt
  infer_instance

/-- Spec-side: 1-based position of the first monitor whose half-open
rectangle contains the point, `none` if no monitor contains it. -/
def specLocateAux (x y : Int) : List Monitor → Option Nat
  | [] => none
  | m :: rest =>
    if containsPt m x y then some 1 else (specLocateAux x y rest).map (· + 1)

/-- Spec-side `locate`: the 1-based index of the first containing
monitor, with sentinel `0` when no monitor contains the point. -/
def specLocate (x y : Int) (ms : List Monitor) : Nat :=
  (specLocateAux x y ms).getD 0

/-- Spec-side selection rule of step 4 of the acquisition loop: the
candidate with the greatest similarity, ties keeping the first-seen
(earlier) one. -/
def firstMax : List (ℚ × Cand) → Option (ℚ × Cand)
  | [] => none
  | p :: ps =>
    match firstMax ps with
    | none => some p
    | some q => if q.1 > p.1 then some q else some p

/-- Spec-side: the iteration's score sequence — every `(monitor,
template)` pairing that was successfully scored in this iteration, in
enumeration order (monitors outer, templates inner), paired with the
candidate it would produce. -/
def iterCandidates (grabK : Monitor → Option Img) (matchT : Img → Img → Option (ℚ × Int × Int))
    (tpls : List LTpl) : List Monitor → List (ℚ × Cand)
  | [] => []
  | mon :: rest =>
    (match grabK mon with
     | none => []
     | some frame =>
       tpls.filterMap (fun t =>
         (matchT frame t.2.1).map
           (fun r => (r.1, ⟨(r.2.1, r.2.2), (t.2.2.1, t.2.2.2), mon, t.1⟩)))) ++
    iterCandidates grabK matchT tpls rest

/-- Spec-side: division of an integer by two truncated toward zero. -/
def halfToward0 (a : Int) : Int := if 0 ≤ a then a / 2 else -((-a) / 2)

/-- Spec-side (claim C2's formula): the center coordinate
`base + off + size / 2` as an exact value, truncated to an integer toward
zero, written in pure integer arithmetic on the doubled sum. -/
def specCenter (base off : Int) (size : Nat) : Int :=
  halfToward0 (2 * (base + off) + (size : Int))

/-- The best-candidate update of lines 131-136 as a fold step. -/
def bestStep (b : BestState) (p : ℚ × Cand) : BestState :=
  if p.1 > b.val then { val := p.1, cand := some p.2 } else b

/-- Event classifier: capture or scoring work (a grab or matchTemplate
call, or the warning either prints on failure). -/
def Event.isWork : Event → Bool
  | .grabCall _ => true
  | .warnGrab _ => true
  | .scoreCall _ => true
  | .warnScore _ => true
  | _ => false

/-- Event classifier: events whose payload carries a similarity score. -/
def Event.carriesScore : Event → Bool
  | .matchLog _ _ _ _ _ => true
  | _ => false

/-- Event classifier: a key-press injection. -/
def Event.isPress : Event → Bool
  | .pressKey _ => true
  | _ => false

/-- Event classifier: a screen-grab call. -/
def Event.isGrabCall : Event → Bool
  | .grabCall _ => true
  | _ => false

/- ------------------------------------------------------------------
Concrete sample data, used by witness theorems and counterexamples.
Scores and clock readings are integer-valued rationals so that all
evaluation stays within kernel-reducible operations.
------------------------------------------------------------------- -/

/-- Sample monitor: a primary 1920x1080 display at the origin. -/
def monA : Monitor := ⟨0, 0, 1920, 1080⟩

/-- Sample decoded template image, 200 wide by 100 high. -/
def tplImgA : Img := ⟨200, 100, 1⟩

/-- Sample captured frame for `monA`. -/
def frameA : Img := ⟨1920, 1080, 7⟩

/-- Sample loaded-template list corresponding to `tplImgA`. -/
def tplsA : List LTpl := [("a.png", tplImgA, 200, 100)]

/-- Sample environment in which the single template scores a perfect 1
at offset (100, 200) on the first iteration. -/
def envHit : Env :=
  { imread := fun p => if p = "a.png" then some tplImgA else none
    enumMonitors := fun _ => [monA]
    grab := fun _ _ => some frameA
    matchT := fun _ _ => some (1, 100, 200)
    elapsedMs := fun k => if k = 0 then 0 else 7000
    moveOk := true, clickOk := true, pressOk := true }

/-- Like `envHit` but the template only ever scores 0 (below any positive
threshold), so a search with timeout 6000 expires at the second clock
check. -/
def envLo : Env := { envHit with matchT := fun _ _ => some (0, 100, 200) }

/-- Like `envLo` but with a different (still sub-threshold) best score. -/
def envLo2 : Env := { envHit with matchT := fun _ _ => some (-1, 100, 200) }

/-- Environment whose single scored pairing reports exactly the
initialisation sentinel `-1`. -/
def cexEnv : Env := { envHit with matchT := fun _ _ => some (-1, 0, 0) }

/-- Environment in which `moveTo` raises (for the key-suppression
witness). -/
def envHitMoveFail : Env := { envHit with moveOk := false }

/-- Environment in which every template path is unreadable. -/
def envAllBad : Env := { envHit with imread := fun _ => none }

/-- Sample template strictly larger than `frameA` on both axes. -/
def tplBig : Img := ⟨3000, 2000, 2⟩

/-- Sample scorer that behaves like `cv2.matchTemplate`: it raises
(returns `none`) exactly when the template exceeds the frame on either
axis, and otherwise reports a perfect match at the origin. -/
def matchSized : Img → Img → Option (ℚ × Int × Int) := fun f t =>
  if t.width ≤ f.width ∧ t.height ≤ f.height then some (1, 0, 0) else none

/-- Environment identical to `envHit` except that the OS monitor list
changes (to empty) at every time-step after the initial snapshot. -/
def envDrift : Env :=
  { envHit with enumMonitors := fun t => if t = 0 then [monA] else [] }

/- ------------------------------------------------------------------
Theorems.
------------------------------------------------------------------- -/

/-- Evaluating the best-candidate update when the new score strictly
beats the running value. -/
theorem bestStep_pos (v : ℚ) (c0 : Option Cand) (p : ℚ × Cand) (h : v < p.1) :
    bestStep ⟨v, c0⟩ p = ⟨p.1, some p.2⟩ := by
  unfold bestStep
  exact if_pos h

/-- Evaluating the best-candidate update when the new score does not
strictly beat the running value. -/
theorem bestStep_neg (v : ℚ) (c0 : Option Cand) (p : ℚ × Cand) (h : ¬ v < p.1) :
    bestStep ⟨v, c0⟩ p = ⟨v, c0⟩ := by
  unfold bestStep
  exact if_neg h

/-- The inner template loop is the fold of `bestStep` over the
successfully scored pairings of this frame, in template-load order. -/
theorem templLoop_fst (matchT : Img → Img → Option (ℚ × Int × Int)) (mon : Monitor)
    (frame : Img) : ∀ (tpls : List LTpl) (b : BestState),
    (templLoop matchT mon frame tpls b).1 =
      (tpls.filterMap (fun t => (matchT frame t.2.1).map
          (fun r => (r.1, (⟨(r.2.1, r.2.2), (t.2.2.1, t.2.2.2), mon, t.1⟩ : Cand))))).foldl
        bestStep b := by
  intro tpls
  induction tpls with
  | nil => intro b; rfl
  | cons t rest ih =>
    intro b
    obtain ⟨name, tpl, tw, th⟩ := t
    simp only [templLoop, List.filterMap_cons]
    cases h : matchT frame tpl with
    | none => simp only [h, Option.map_none', ih]
    | some r =>
      obtain ⟨maxVal, lx, ly⟩ := r
      simp only [h, Option.map_some', List.foldl_cons, ih, bestStep]

/-- The whole per-iteration scan is the fold of `bestStep` over the
iteration's score sequence (monitors outer, templates inner). -/
theorem monLoop_fst (grabK : Monitor → Option Img) (matchT : Img → Img → Option (ℚ × Int × Int))
    (tpls : List LTpl) : ∀ (ms : List Monitor) (b : BestState),
    (monLoop grabK matchT tpls ms b).1 =
      (iterCandidates grabK matchT tpls ms).foldl bestStep b := by
  intro ms
  induction ms with
  | nil => intro b; rfl
  | cons mon rest ih =>
    intro b
    simp only [monLoop, iterCandidates]
    cases h : grabK mon with
    | none => simp only [h, ih, List.nil_append]
    | some frame => simp only [h, List.foldl_append, ih, templLoop_fst]

/-- `firstMax` returns `none` exactly on the empty candidate list. -/
theorem firstMax_eq_none_iff (cs : List (ℚ × Cand)) : firstMax cs = none ↔ cs = [] := by
  cases cs with
  | nil => simp [firstMax]
  | cons p ps =>
    simp only [firstMax]
    cases firstMax ps with
    | none => simp
    | some q =>
      by_cases hq : q.1 > p.1 <;> simp [hq]

/-- The value component of `firstMax` bounds every score in the list. -/
theorem firstMax_le : ∀ (cs : List (ℚ × Cand)) (q : ℚ × Cand), firstMax cs = some q →
    ∀ p ∈ cs, p.1 ≤ q.1 := by
  intro cs
  induction cs with
  | nil => intro q hq; simp [firstMax] at hq
  | cons x xs ih =>
    intro q hq p hp
    simp only [firstMax] at hq
    cases hfm : firstMax xs with
    | none =>
      rw [hfm] at hq
      have hxq : x = q := by simpa using hq
      have hxs : xs = [] := (firstMax_eq_none_iff xs).1 hfm
      subst hxs
      have hpx : p = x := by simpa using hp
      rw [hpx, hxq]
    | some y =>
      rw [hfm] at hq
      simp only at hq
      rcases List.mem_cons.1 hp with hpx | hpxs
      · subst hpx
        split_ifs at hq with hgt
        · have hyq : y = q := by simpa using hq
          rw [← hyq]; exact le_of_lt hgt
        · have hpq : p = q := by simpa using hq
          rw [hpq]
      · have hpy : p.1 ≤ y.1 := ih y hfm p hpxs
        split_ifs at hq with hgt
        · have hyq : y = q := by simpa using hq
          rw [← hyq]; exact hpy
        · have hxq : x = q := by simpa using hq
          rw [← hxq]; exact le_trans hpy (le_of_not_lt hgt)

/-- Folding `bestStep` over a candidate list with first-seen maximum `q`
ends at exactly `q` when `q` strictly beats the starting value, and keeps
the start state otherwise. -/
theorem foldl_bestStep_some : ∀ (cs : List (ℚ × Cand)) (q : ℚ × Cand), firstMax cs = some q →
    ∀ (v : ℚ) (c0 : Option Cand),
    cs.foldl bestStep ⟨v, c0⟩ =
      if v < q.1 then ⟨q.1, some q.2⟩ else ⟨v, c0⟩ := by
  intro cs
  induction cs with
  | nil => intro q hq; simp [firstMax] at hq
  | cons p ps ih =>
    intro q hq v c0
    rw [List.foldl_cons]
    simp only [firstMax] at hq
    cases hfm : firstMax ps with
    | none =>
      rw [hfm] at hq
      have hpq : p = q := by simpa using hq
      have hps : ps = [] := (firstMax_eq_none_iff ps).1 hfm
      subst hps
      rw [← hpq]
      by_cases hvp : v < p.1
      · rw [bestStep_pos v c0 p hvp, if_pos hvp]; rfl
      · rw [bestStep_neg v c0 p hvp, if_neg hvp]; rfl
    | some y =>
      rw [hfm] at hq
      simp only at hq
      split_ifs at hq with hgt
      · -- y strictly beats the head p, so y is the first-seen maximum
        have hyq : y = q := by simpa using hq
        have hpy : p.1 < y.1 := hgt
        rw [← hyq]
        by_cases hvp : v < p.1
        · rw [bestStep_pos v c0 p hvp, ih y hfm, if_pos hpy, if_pos (lt_trans hvp hpy)]
        · rw [bestStep_neg v c0 p hvp, ih y hfm]
      · -- the head p wins ties and non-strict comparisons: p is first-seen maximum
        have hpq : p = q := by simpa using hq
        have hyp : y.1 ≤ p.1 := le_of_not_lt hgt
        rw [← hpq]
        by_cases hvp : v < p.1
        · rw [bestStep_pos v c0 p hvp, ih y hfm, if_neg (not_lt.2 hyp), if_pos hvp]
        · rw [bestStep_neg v c0 p hvp, ih y hfm,
            if_neg (fun hvy => hvp (lt_of_lt_of_le hvy hyp)), if_neg hvp]


/-- C1 (amended): in one iteration of the acquisition loop, provided at
least one successfully scored pairing exceeds the initialisation
sentinel `-1`, the loop retains exactly the first-seen candidate of
greatest similarity over the iteration's score sequence (earlier monitor,
then earlier template, wins ties), together with its score; so the
selection is the deterministic function `firstMax` of the score
sequence. -/
theorem best_candidate_selection_first_max (grabK : Monitor → Option Img)
    (matchT : Img → Img → Option (ℚ × Int × Int)) (tpls : List LTpl) (ms : List Monitor)
    (h : ∃ p ∈ iterCandidates grabK matchT tpls ms, (-1 : ℚ) < p.1) :
    ∃ q, firstMax (iterCandidates grabK matchT tpls ms) = some q ∧
      (monLoop grabK matchT tpls ms ⟨-1, none⟩).1 = ⟨q.1, some q.2⟩ := by
  obtain ⟨p, hp, hp1⟩ := h
  cases hfm : firstMax (iterCandidates grabK matchT tpls ms) with
  | none =>
    have : iterCandidates grabK matchT tpls ms = [] := (firstMax_eq_none_iff _).1 hfm
    rw [this] at hp
    exact absurd hp (List.not_mem_nil p)
  | some q =>
    refine ⟨q, rfl, ?_⟩
    have hq1 : (-1 : ℚ) < q.1 := lt_of_lt_of_le hp1 (firstMax_le _ q hfm p hp)
    rw [monLoop_fst, foldl_bestStep_some _ q hfm, if_pos hq1]

/-- C1 counterexample: with a single monitor and a single template whose
only scored pairing reports exactly `-1`, the score sequence is the
nonempty list `[(-1, c)]`, whose first-seen maximum is `c` — yet the loop
retains no candidate at all, because the update test `max_val > best_val`
never fires against the initialisation value `-1`.  So the claim as
stated (the first-seen greatest candidate is always retained) is false. -/
theorem best_candidate_selection_cex :
    firstMax (iterCandidates (cexEnv.grab 0) cexEnv.matchT tplsA [monA])
        = some (-1, ⟨(0, 0), (200, 100), monA, "a.png"⟩) ∧
      (monLoop (cexEnv.grab 0) cexEnv.matchT tplsA [monA] ⟨-1, none⟩).1.cand = none := by
  constructor
  · decide
  · decide

/-- C1 witness: a concrete iteration (one monitor, one template scoring
`1`) in which the amended selection theorem applies. -/
theorem best_candidate_selection_witness :
    ∃ q, firstMax (iterCandidates (envHit.grab 0) envHit.matchT tplsA [monA]) = some q ∧
      (monLoop (envHit.grab 0) envHit.matchT tplsA [monA] ⟨-1, none⟩).1 = ⟨q.1, some q.2⟩ :=
  best_candidate_selection_first_max (envHit.grab 0) envHit.matchT tplsA [monA]
    ⟨(1, ⟨(100, 200), (200, 100), monA, "a.png"⟩), by decide, by decide⟩


/-- The `enumerate(start=i)` loop of `point_monitor_index` returns
`i + j - 1` where `j` is the 1-based position of the first containing
monitor, and `0` when none contains the point. -/
theorem pmiFrom_eq (x y : Int) : ∀ (ms : List Monitor) (i : Nat),
    pmiFrom x y i ms = ((specLocateAux x y ms).map (fun j => i + j - 1)).getD 0 := by
  intro ms
  induction ms with
  | nil => intro i; rfl
  | cons m rest ih =>
    intro i
    simp only [pmiFrom, specLocateAux]
    by_cases h : containsPt m x y
    · rw [if_pos ⟨h.1, h.2.2.1, h.2.1, h.2.2.2⟩, if_pos h]
      simp
    · have hcode : ¬ (x ≥ m.left ∧ y ≥ m.top ∧ x < m.left + m.width ∧ y < m.top + m.height) :=
        fun hc => h ⟨hc.1, hc.2.2.1, hc.2.1, hc.2.2.2⟩
      rw [if_neg hcode, if_neg h, ih]
      cases specLocateAux x y rest with
      | none => rfl
      | some j =>
        simp only [Option.map_some', Option.getD_some]
        omega

/-- C3: `point_monitor_index` agrees everywhere with the specification's
`locate`: the 1-based index of the first monitor (in enumeration order)
whose half-open rectangle `[left, left+width) × [top, top+height)`
contains the point (left/top inclusive, right/bottom exclusive), with
sentinel `0` when no monitor contains it. -/
theorem point_monitor_index_eq_specLocate (x y : Int) (ms : List Monitor) :
    point_monitor_index x y ms = specLocate x y ms := by
  unfold point_monitor_index specLocate
  rw [pmiFrom_eq]
  cases specLocateAux x y ms with
  | none => rfl
  | some j =>
    simp only [Option.map_some', Option.getD_some]
    omega


/-- Truncating `a / 2` toward zero, computed exactly on rationals (the
Python `int(float)` route), equals the integer-arithmetic truncated
halving. -/
theorem ratTrunc_intCast_div_two (a : Int) : ratTrunc ((a : ℚ) / 2) = halfToward0 a := by
  unfold ratTrunc halfToward0
  by_cases h : (0 : ℤ) ≤ a
  · have h2 : (0 : ℚ) ≤ (a : ℚ) / 2 := by
      have : (0 : ℚ) ≤ (a : ℚ) := by exact_mod_cast h
      linarith
    rw [if_pos h2, if_pos h]
    simpa using Rat.floor_intCast_div_natCast a 2
  · have ha : (a : ℚ) < 0 := by exact_mod_cast lt_of_not_ge h
    have h2 : ¬ (0 : ℚ) ≤ (a : ℚ) / 2 := by rw [not_le]; linarith
    rw [if_neg h2, if_neg h]
    have hneg : ((a : ℚ) / 2) = -((((-a : ℤ)) : ℚ) / 2) := by push_cast; ring
    rw [hneg, Int.ceil_neg]
    have hfl : ⌊(((-a : ℤ) : ℚ)) / 2⌋ = (-a) / 2 := by
      simpa using Rat.floor_intCast_div_natCast (-a) 2
    rw [hfl]

/-- C2's coordinate bridge: the code's click coordinate
`int(base + off + size / 2)` — float arithmetic then truncation — equals
the spec's `base + off + size/2` truncated to an integer toward zero. -/
theorem centerCoord_eq_specCenter (base off : Int) (size : Nat) :
    centerCoord base off size = specCenter base off size := by
  unfold centerCoord specCenter
  have hcast : (base : ℚ) + (off : ℚ) + (size : ℚ) / 2
      = ((2 * (base + off) + (size : Int) : ℤ) : ℚ) / 2 := by
    push_cast
    ring
  rw [hcast]
  exact ratTrunc_intCast_div_two _

/-- One step of the search loop when the deadline has passed: report
not-found. -/
theorem searchLoop_expired (env : Env) (t : List LTpl) (m : List Monitor) (th : ℚ)
    (rt tmo : Int) (k fuel : Nat) (hE : ¬ env.elapsedMs k < (tmo : ℚ)) :
    searchLoop env t m th rt tmo k (fuel + 1) = some (false, [.infoNotFound]) := by
  rw [searchLoop]
  exact if_neg hE

/-- One step of the search loop when the deadline has not passed and the
iteration's best meets the threshold with a recorded candidate: log the
match, run the action block, and return `True`. -/
theorem searchLoop_success (env : Env) (t : List LTpl) (m : List Monitor) (th : ℚ)
    (rt tmo : Int) (k fuel : Nat) (c : Cand)
    (hE : env.elapsedMs k < (tmo : ℚ))
    (hv : th ≤ (monLoop (env.grab k) env.matchT t m ⟨-1, none⟩).1.val)
    (hc : (monLoop (env.grab k) env.matchT t m ⟨-1, none⟩).1.cand = some c) :
    searchLoop env t m th rt tmo k (fuel + 1) =
      some (true, (monLoop (env.grab k) env.matchT t m ⟨-1, none⟩).2 ++
        .matchLog c.imageName (monIdxOf m c.monitor)
          (monLoop (env.grab k) env.matchT t m ⟨-1, none⟩).1.val
          (centerCoord c.monitor.left c.loc.1 c.tplSize.1)
          (centerCoord c.monitor.top c.loc.2 c.tplSize.2) ::
        doActions env (centerCoord c.monitor.left c.loc.1 c.tplSize.1)
          (centerCoord c.monitor.top c.loc.2 c.tplSize.2)) := by
  rw [searchLoop]
  rw [if_pos hE]
  simp only [hv, if_true, hc]

/-- One step of the search loop when the deadline has not passed but the
iteration does not yield an acceptable candidate: sleep and retry. -/
theorem searchLoop_retry (env : Env) (t : List LTpl) (m : List Monitor) (th : ℚ)
    (rt tmo : Int) (k fuel : Nat)
    (hE : env.elapsedMs k < (tmo : ℚ))
    (h : ¬ (th ≤ (monLoop (env.grab k) env.matchT t m ⟨-1, none⟩).1.val ∧
        ((monLoop (env.grab k) env.matchT t m ⟨-1, none⟩).1.cand).isSome)) :
    searchLoop env t m th rt tmo k (fuel + 1) =
      (searchLoop env t m th rt tmo (k + 1) fuel).map
        (fun p => (p.1, (monLoop (env.grab k) env.matchT t m ⟨-1, none⟩).2 ++
          .sleepRetry rt :: p.2)) := by
  rw [searchLoop]
  rw [if_pos hE]
  by_cases hv : th ≤ (monLoop (env.grab k) env.matchT t m ⟨-1, none⟩).1.val
  · cases hc : (monLoop (env.grab k) env.matchT t m ⟨-1, none⟩).1.cand with
    | some c => exact absurd ⟨hv, by rw [hc]; rfl⟩ h
    | none => simp only [hv, if_true, hc]
  · simp only [hv, if_false]


/-- Every event emitted by the inner template loop is capture/scoring
work. -/
theorem templLoop_events (matchT : Img → Img → Option (ℚ × Int × Int)) (mon : Monitor)
    (frame : Img) : ∀ (tpls : List LTpl) (b : BestState),
    ∀ e ∈ (templLoop matchT mon frame tpls b).2, e.isWork = true := by
  intro tpls
  induction tpls with
  | nil => intro b e he; exact absurd he (List.not_mem_nil e)
  | cons t rest ih =>
    intro b e he
    obtain ⟨name, tpl, tw, th⟩ := t
    cases h : matchT frame tpl with
    | none =>
      simp only [templLoop, h] at he
      rcases List.mem_cons.1 he with rfl | he2
      · rfl
      · rcases List.mem_cons.1 he2 with rfl | he3
        · rfl
        · exact ih b e he3
    | some r =>
      obtain ⟨maxVal, lx, ly⟩ := r
      simp only [templLoop, h] at he
      rcases List.mem_cons.1 he with rfl | he2
      · rfl
      · exact ih _ e he2

/-- Every event emitted by the per-iteration monitor scan is
capture/scoring work. -/
theorem monLoop_events (grabK : Monitor → Option Img)
    (matchT : Img → Img → Option (ℚ × Int × Int)) (tpls : List LTpl) :
    ∀ (ms : List Monitor) (b : BestState),
    ∀ e ∈ (monLoop grabK matchT tpls ms b).2, e.isWork = true := by
  intro ms
  induction ms with
  | nil => intro b e he; exact absurd he (List.not_mem_nil e)
  | cons mon rest ih =>
    intro b e he
    cases h : grabK mon with
    | none =>
      simp only [monLoop, h] at he
      rcases List.mem_cons.1 he with rfl | he2
      · rfl
      · rcases List.mem_cons.1 he2 with rfl | he3
        · rfl
        · exact ih b e he3
    | some frame =>
      simp only [monLoop, h] at he
      rcases List.mem_cons.1 he with rfl | he2
      · rfl
      · rcases List.mem_append.1 he2 with he3 | he3
        · exact templLoop_events matchT mon frame tpls b e he3
        · exact ih _ e he3

/-- Capture/scoring work is neither a key press nor a score-carrying
report nor any pointer action. -/
theorem work_classify (e : Event) (h : e.isWork = true) :
    e.isPress = false ∧ e.carriesScore = false := by
  cases e <;> first
    | exact ⟨rfl, rfl⟩
    | exact absurd h (by simp [Event.isWork])

/-- If the pointer move or the click raises, the action block never
presses a key. -/
theorem doActions_press (env : Env) (gx gy : Int)
    (hfail : env.moveOk = false ∨ env.clickOk = false) :
    ∀ e ∈ doActions env gx gy, e.isPress = false := by
  intro e he
  unfold doActions at he
  rcases hfail with hm | hc
  · rw [hm] at he
    simp at he
    rcases he with rfl | rfl
    · rfl
    · rfl
  · rw [hc] at he
    by_cases hm : env.moveOk
    · rw [hm] at he
      simp at he
      rcases he with rfl | rfl | rfl
      · rfl
      · rfl
      · rfl
    · rw [Bool.not_eq_true] at hm
      rw [hm] at he
      simp at he
      rcases he with rfl | rfl
      · rfl
      · rfl

/-- C2: whenever the deadline has not yet passed and the iteration's best
candidate `c` has similarity at least the threshold, the search loop
returns success and moves the pointer to the candidate's center in
virtual-desktop coordinates — `monitor.left + offset.x + width/2` and
`monitor.top + offset.y + height/2`, each truncated to an integer toward
zero (`specCenter`). -/
theorem click_center_spec (env : Env) (t : List LTpl) (m : List Monitor) (th : ℚ)
    (rt tmo : Int) (k fuel : Nat) (c : Cand)
    (hE : env.elapsedMs k < (tmo : ℚ))
    (hv : th ≤ (monLoop (env.grab k) env.matchT t m ⟨-1, none⟩).1.val)
    (hc : (monLoop (env.grab k) env.matchT t m ⟨-1, none⟩).1.cand = some c) :
    ∃ evs, searchLoop env t m th rt tmo k (fuel + 1) = some (true, evs) ∧
      Event.moveTo (specCenter c.monitor.left c.loc.1 c.tplSize.1)
        (specCenter c.monitor.top c.loc.2 c.tplSize.2) ∈ evs := by
  refine ⟨_, searchLoop_success env t m th rt tmo k fuel c hE hv hc, ?_⟩
  rw [← centerCoord_eq_specCenter, ← centerCoord_eq_specCenter]
  exact List.mem_append_right _ (List.mem_cons_of_mem _ (List.mem_cons_self _ _))

/-- C2 witness: the concrete environment `envHit` (perfect score at
offset (100, 200) on a 1920x1080 monitor at the origin with a 200x100
template) clicks at the truncated center. -/
theorem click_center_spec_witness :
    ∃ evs, searchLoop envHit tplsA [monA] 1 120 6000 0 1 = some (true, evs) ∧
      Event.moveTo (specCenter 0 100 200) (specCenter 0 200 100) ∈ evs :=
  click_center_spec envHit tplsA [monA] 1 120 6000 0 0
    ⟨(100, 200), (200, 100), monA, "a.png"⟩ (by decide) (by decide) (by decide)

/-- C5: once an iteration's best candidate meets the threshold, the
search call reports success no matter which of the pointer move, click or
key send fail: every combination of action-executor outcomes still
returns `true`. -/
theorem success_independent_of_action_failures (env : Env) (t : List LTpl) (m : List Monitor)
    (th : ℚ) (rt tmo : Int) (k fuel : Nat) (a b c : Bool)
    (hE : env.elapsedMs k < (tmo : ℚ))
    (hv : th ≤ (monLoop (env.grab k) env.matchT t m ⟨-1, none⟩).1.val)
    (hsome : ((monLoop (env.grab k) env.matchT t m ⟨-1, none⟩).1.cand).isSome = true) :
    ∃ evs, searchLoop { env with moveOk := a, clickOk := b, pressOk := c }
        t m th rt tmo k (fuel + 1) = some (true, evs) := by
  obtain ⟨cand, hc⟩ := Option.isSome_iff_exists.1 hsome
  exact ⟨_, searchLoop_success { env with moveOk := a, clickOk := b, pressOk := c }
    t m th rt tmo k fuel cand hE hv hc⟩

/-- C5 witness: the match in `envHit` is reported as success even when
move, click and key send all fail. -/
theorem success_independent_witness :
    ∃ evs, searchLoop { envHit with moveOk := false, clickOk := false, pressOk := false }
        tplsA [monA] 1 120 6000 0 1 = some (true, evs) :=
  success_independent_of_action_failures envHit tplsA [monA] 1 120 6000 0 0
    false false false (by decide) (by decide) (by decide)

/-- C10: if the pointer move or the click raises after a successful
match, the confirmation key is never pressed — no `pressKey` event occurs
anywhere in the call's output — even though the loop still returns
`true`. -/
theorem move_click_failure_suppresses_key (env : Env) (t : List LTpl) (m : List Monitor)
    (th : ℚ) (rt tmo : Int) (k fuel : Nat) (c : Cand)
    (hE : env.elapsedMs k < (tmo : ℚ))
    (hv : th ≤ (monLoop (env.grab k) env.matchT t m ⟨-1, none⟩).1.val)
    (hc : (monLoop (env.grab k) env.matchT t m ⟨-1, none⟩).1.cand = some c)
    (hfail : env.moveOk = false ∨ env.clickOk = false) :
    ∃ evs, searchLoop env t m th rt tmo k (fuel + 1) = some (true, evs) ∧
      ∀ e ∈ evs, e.isPress = false := by
  refine ⟨_, searchLoop_success env t m th rt tmo k fuel c hE hv hc, ?_⟩
  intro e he
  rcases List.mem_append.1 he with h1 | h2
  · exact (work_classify e (monLoop_events (env.grab k) env.matchT t m ⟨-1, none⟩ e h1)).1
  · rcases List.mem_cons.1 h2 with rfl | h3
    · rfl
    · exact doActions_press env _ _ hfail e h3

/-- C10 witness: in `envHitMoveFail` (the pointer move raises) the search
still returns `true` and no key press happens. -/
theorem move_click_failure_witness :
    ∃ evs, searchLoop envHitMoveFail tplsA [monA] 1 120 6000 0 1 = some (true, evs) ∧
      ∀ e ∈ evs, e.isPress = false :=
  move_click_failure_suppresses_key envHitMoveFail tplsA [monA] 1 120 6000 0 0
    ⟨(100, 200), (200, 100), monA, "a.png"⟩ (by decide) (by decide) (by decide)
    (Or.inl rfl)


/-- The loaded-template list is exactly the decodable subset of the input
paths, in order, each with its decoded dimensions. -/
theorem load_templates_fst (imread : String → Option Img) : ∀ (paths : List String),
    (load_templates imread paths).1
      = paths.filterMap (fun p => (imread p).map (fun i => (p, i, i.width, i.height))) := by
  intro paths
  induction paths with
  | nil => rfl
  | cons p rest ih =>
    simp only [load_templates, List.filterMap_cons]
    cases h : imread p with
    | none => simp only [h, Option.map_none', ih]
    | some i => simp only [h, Option.map_some', ih]

/-- Template loading emits exactly one warning, naming the path, for each
undecodable input path, in order. -/
theorem load_templates_snd (imread : String → Option Img) : ∀ (paths : List String),
    (load_templates imread paths).2
      = (paths.filter (fun p => (imread p).isNone)).map Event.warnRead := by
  intro paths
  induction paths with
  | nil => rfl
  | cons p rest ih =>
    simp only [load_templates, List.filter_cons]
    cases h : imread p with
    | none => simp [h, ih]
    | some i => simp [h, ih]

/-- C4: template loading never aborts the batch: the loaded result is
exactly the decodable subset of the paths; every bad path produces one
warning identifying it; and when every path is bad, the search call fails
immediately with the not-found result, performing no search-loop work at
all (the output is just the banner, the per-path warnings and the
configuration error, for any fuel). -/
theorem template_loading_tolerates_bad_paths (env : Env) (paths : List String) :
    (load_templates env.imread paths).1
      = paths.filterMap (fun p => (env.imread p).map (fun i => (p, i, i.width, i.height))) ∧
    (load_templates env.imread paths).2
      = (paths.filter (fun p => (env.imread p).isNone)).map Event.warnRead ∧
    ((∀ p ∈ paths, env.imread p = none) → ∀ (th : ℚ) (rt tmo : Int) (fuel : Nat),
      find_and_click env paths th rt tmo fuel
        = some (false, .infoSearch paths :: paths.map Event.warnRead ++ [.errNoImages])) := by
  refine ⟨load_templates_fst _ _, load_templates_snd _ _, ?_⟩
  intro hbad th rt tmo fuel
  have h1 : (load_templates env.imread paths).1 = [] := by
    rw [load_templates_fst]
    exact List.filterMap_eq_nil_iff.2 (fun p hp => by rw [hbad p hp]; rfl)
  have h2 : (load_templates env.imread paths).2 = paths.map Event.warnRead := by
    rw [load_templates_snd]
    congr 1
    exact List.filter_eq_self.2 (fun p hp => by rw [hbad p hp]; rfl)
  simp [find_and_click, h1, h2]

/-- C4 witness: a two-path batch in which both paths are unreadable loads
nothing, warns per path, and makes the search call fail immediately. -/
theorem template_loading_witness :
    find_and_click envAllBad ["a.png", "b.png"] 1 120 6000 3
      = some (false, .infoSearch ["a.png", "b.png"] ::
          (["a.png", "b.png"].map Event.warnRead) ++ [.errNoImages]) :=
  (template_loading_tolerates_bad_paths envAllBad ["a.png", "b.png"]).2.2
    (fun _ _ => rfl) 1 120 6000 3

/-- C6: with a timeout of zero or less (and a monotonic clock), the
search call performs no screen capture and no template scoring at all and
immediately reports the not-found outcome. -/
theorem nonpositive_timeout_no_work (env : Env) (images : List String) (th : ℚ)
    (rt tmo : Int) (fuel : Nat)
    (hT : tmo ≤ 0) (hM : 0 ≤ env.elapsedMs 0) :
    ∃ evs, find_and_click env images th rt tmo (fuel + 1) = some (false, evs) ∧
      ∀ e ∈ evs, e.isWork = false := by
  have hE : ¬ env.elapsedMs 0 < (tmo : ℚ) := by
    rw [not_lt]
    calc (tmo : ℚ) ≤ 0 := by exact_mod_cast hT
    _ ≤ env.elapsedMs 0 := hM
  have hwarn : ∀ e ∈ (load_templates env.imread images).2, e.isWork = false := by
    intro e he
    rw [load_templates_snd] at he
    obtain ⟨p, _, rfl⟩ := List.mem_map.1 he
    rfl
  by_cases hempty : (load_templates env.imread images).1.isEmpty
  · refine ⟨.infoSearch images :: (load_templates env.imread images).2 ++ [.errNoImages],
      ?_, ?_⟩
    · simp only [find_and_click]
      rw [if_pos hempty]
    · intro e he
      rcases List.mem_cons.1 he with rfl | he2
      · rfl
      · rcases List.mem_append.1 he2 with he3 | he3
        · exact hwarn e he3
        · rcases List.mem_cons.1 he3 with rfl | he4
          · rfl
          · exact absurd he4 (List.not_mem_nil e)
  · refine ⟨.infoSearch images :: (load_templates env.imread images).2 ++ [.infoNotFound],
      ?_, ?_⟩
    · simp only [find_and_click]
      rw [if_neg hempty,
        searchLoop_expired env _ _ th rt tmo 0 fuel hE]
      rfl
    · intro e he
      rcases List.mem_cons.1 he with rfl | he2
      · rfl
      · rcases List.mem_append.1 he2 with he3 | he3
        · exact hwarn e he3
        · rcases List.mem_cons.1 he3 with rfl | he4
          · rfl
          · exact absurd he4 (List.not_mem_nil e)

/-- C6 witness: timeout `0` in the concrete environment `envHit` yields
not-found with no capture or scoring work. -/
theorem nonpositive_timeout_witness :
    ∃ evs, find_and_click envHit ["a.png"] 1 120 0 1 = some (false, evs) ∧
      ∀ e ∈ evs, e.isWork = false :=
  nonpositive_timeout_no_work envHit ["a.png"] 1 120 0 0 (by decide) (by decide)

/-- C7: a pairing whose scoring call fails (for example a template larger
than the frame on either axis, which makes `cv2.matchTemplate` raise)
contributes no candidate and does not stop the scan: the iteration's best
state is exactly as if that pairing were absent, and scoring continues
with the remaining pairings. -/
theorem scoring_failure_skips_pairing (matchT : Img → Img → Option (ℚ × Int × Int))
    (mon : Monitor) (frame : Img) (pre post : List LTpl)
    (name : String) (tpl : Img) (tw th : Nat) (b : BestState)
    (h : matchT frame tpl = none) :
    (templLoop matchT mon frame (pre ++ (name, tpl, tw, th) :: post) b).1
      = (templLoop matchT mon frame (pre ++ post) b).1 := by
  induction pre generalizing b with
  | nil => simp only [List.nil_append, templLoop, h]
  | cons t rest ih =>
    obtain ⟨n2, tpl2, tw2, th2⟩ := t
    simp only [List.cons_append, templLoop]
    cases h2 : matchT frame tpl2 with
    | none => exact ih _
    | some r =>
      obtain ⟨mv, lx, ly⟩ := r
      exact ih _

/-- C7 witness: with the size-checking scorer, an oversized template in
the middle of the load order leaves the iteration's best state exactly as
if it were absent. -/
theorem scoring_failure_witness :
    (templLoop matchSized monA frameA
        ([("a.png", tplImgA, 200, 100)] ++ ("big.png", tplBig, 3000, 2000) :: []) ⟨-1, none⟩).1
      = (templLoop matchSized monA frameA ([("a.png", tplImgA, 200, 100)] ++ []) ⟨-1, none⟩).1 :=
  scoring_failure_skips_pairing matchSized monA frameA
    [("a.png", tplImgA, 200, 100)] [] "big.png" tplBig 3000 2000 ⟨-1, none⟩ (by decide)


/-- C8 (amended): whenever the search loop terminates with the not-found
result, none of its emitted events carries a similarity score — the
expired outcome is the constant not-found report, without the best score
seen — though the not-found line itself is always reported. -/
theorem expired_report_carries_no_score (env : Env) (t : List LTpl) (m : List Monitor)
    (th : ℚ) (rt tmo : Int) : ∀ (fuel k : Nat) (evs : List Event),
    searchLoop env t m th rt tmo k fuel = some (false, evs) →
    (∀ e ∈ evs, e.carriesScore = false) ∧ Event.infoNotFound ∈ evs := by
  intro fuel
  induction fuel with
  | zero =>
    intro k evs h
    rw [searchLoop] at h
    exact Option.noConfusion h
  | succ nn ih =>
    intro k evs h
    by_cases hE : env.elapsedMs k < (tmo : ℚ)
    · by_cases hOK : th ≤ (monLoop (env.grab k) env.matchT t m ⟨-1, none⟩).1.val ∧
          ((monLoop (env.grab k) env.matchT t m ⟨-1, none⟩).1.cand).isSome = true
      · obtain ⟨c, hc⟩ := Option.isSome_iff_exists.1 hOK.2
        rw [searchLoop_success env t m th rt tmo k nn c hE hOK.1 hc] at h
        simp at h
      · rw [searchLoop_retry env t m th rt tmo k nn hE hOK] at h
        obtain ⟨p, hp, hmap⟩ := Option.map_eq_some'.1 h
        obtain ⟨r1, evs1⟩ := p
        rw [Prod.mk.injEq] at hmap
        obtain ⟨hr, hevs⟩ := hmap
        subst hr
        subst hevs
        obtain ⟨ihs, ihmem⟩ := ih (k + 1) evs1 hp
        constructor
        · intro e he
          rcases List.mem_append.1 he with h1 | h2
          · exact (work_classify e
              (monLoop_events (env.grab k) env.matchT t m ⟨-1, none⟩ e h1)).2
          · rcases List.mem_cons.1 h2 with rfl | h3
            · rfl
            · exact ihs e h3
        · exact List.mem_append_right _ (List.mem_cons_of_mem _ ihmem)
    · rw [searchLoop_expired env t m th rt tmo k nn hE] at h
      rw [Option.some.injEq, Prod.mk.injEq] at h
      obtain ⟨-, hevs⟩ := h
      subst hevs
      constructor
      · intro e he
        rcases List.mem_cons.1 he with rfl | he2
        · rfl
        · exact absurd he2 (List.not_mem_nil e)
      · exact List.mem_cons_self _ _

/-- C8 counterexample: two searches that see different best scores (0 in
`envLo`, -1 in `envLo2`, both below the threshold) produce *identical*
user-visible outcomes — the same return value and the same event and
report sequence — so the reported expired outcome cannot carry the best
score seen, contradicting the claim. -/
theorem expired_report_cex :
    find_and_click envLo ["a.png"] 1 120 6000 3 = find_and_click envLo2 ["a.png"] 1 120 6000 3 ∧
      ¬ ((monLoop (envLo.grab 0) envLo.matchT tplsA [monA] ⟨-1, none⟩).1.val
          = (monLoop (envLo2.grab 0) envLo2.matchT tplsA [monA] ⟨-1, none⟩).1.val) := by
  constructor
  · decide
  · decide

/-- C8 witness: a concrete expired run (score 0, threshold 1, one retry
then timeout) whose output carries no score and reports not-found. -/
theorem expired_report_witness :
    (∀ e ∈ ([.grabCall monA, .scoreCall "a.png", .sleepRetry 120, .infoNotFound] : List Event),
        e.carriesScore = false) ∧
      Event.infoNotFound ∈
        ([.grabCall monA, .scoreCall "a.png", .sleepRetry 120, .infoNotFound] : List Event) :=
  expired_report_carries_no_score envLo tplsA [monA] 1 120 6000 2 0
    [.grabCall monA, .scoreCall "a.png", .sleepRetry 120, .infoNotFound] (by decide)

/-- The action block is determined by the action-outcome fields alone. -/
theorem doActions_congr (e1 e2 : Env) (hmove : e1.moveOk = e2.moveOk)
    (hclick : e1.clickOk = e2.clickOk) (hpress : e1.pressOk = e2.pressOk) (gx gy : Int) :
    doActions e1 gx gy = doActions e2 gx gy := by
  unfold doActions
  rw [hmove, hclick, hpress]

/-- The search loop never consults the monitor-enumeration oracle: its
behaviour is fully determined by the capture, scoring, clock and action
fields. -/
theorem searchLoop_congr (e1 e2 : Env) (hgrab : e1.grab = e2.grab)
    (hmatch : e1.matchT = e2.matchT) (helapsed : e1.elapsedMs = e2.elapsedMs)
    (hmove : e1.moveOk = e2.moveOk) (hclick : e1.clickOk = e2.clickOk)
    (hpress : e1.pressOk = e2.pressOk) (t : List LTpl) (m : List Monitor) (th : ℚ)
    (rt tmo : Int) : ∀ (fuel k : Nat),
    searchLoop e1 t m th rt tmo k fuel = searchLoop e2 t m th rt tmo k fuel := by
  intro fuel
  induction fuel with
  | zero => intro k; rfl
  | succ n ih =>
    intro k
    rw [searchLoop, searchLoop, hgrab, hmatch, helapsed]
    simp only [doActions_congr e1 e2 hmove hclick hpress, ih]

/-- No event of the inner template loop is a screen-grab call. -/
theorem templLoop_no_grab (matchT : Img → Img → Option (ℚ × Int × Int)) (mon : Monitor)
    (frame : Img) : ∀ (tpls : List LTpl) (b : BestState),
    (templLoop matchT mon frame tpls b).2.filter Event.isGrabCall = [] := by
  intro tpls
  induction tpls with
  | nil => intro b; rfl
  | cons t rest ih =>
    intro b
    obtain ⟨name, tpl, tw, th⟩ := t
    cases h : matchT frame tpl with
    | none => simp [templLoop, h, Event.isGrabCall, ih]
    | some r =>
      obtain ⟨mv, lx, ly⟩ := r
      simp [templLoop, h, Event.isGrabCall, ih]

/-- The grab calls of one iteration are exactly the snapshot's monitors,
in enumeration order. -/
theorem monLoop_grab_trace (grabK : Monitor → Option Img)
    (matchT : Img → Img → Option (ℚ × Int × Int)) (tpls : List LTpl) :
    ∀ (ms : List Monitor) (b : BestState),
    (monLoop grabK matchT tpls ms b).2.filter Event.isGrabCall = ms.map Event.grabCall := by
  intro ms
  induction ms with
  | nil => intro b; rfl
  | cons mon rest ih =>
    intro b
    cases h : grabK mon with
    | none => simp [monLoop, h, Event.isGrabCall, ih]
    | some frame =>
      simp [monLoop, h, Event.isGrabCall, ih, List.filter_append, templLoop_no_grab]

/-- The action block performs no screen-grab call. -/
theorem doActions_no_grab (env : Env) (gx gy : Int) :
    (doActions env gx gy).filter Event.isGrabCall = [] := by
  unfold doActions
  cases hm : env.moveOk <;> cases hc : env.clickOk <;> cases hp : env.pressOk <;>
    simp [Event.isGrabCall]

/-- Warning events of template loading are never grab calls. -/
theorem load_warns_no_grab (imread : String → Option Img) (paths : List String) :
    (load_templates imread paths).2.filter Event.isGrabCall = [] := by
  rw [load_templates_snd]
  induction paths.filter (fun p => (imread p).isNone) with
  | nil => rfl
  | cons p rest ih => simp [Event.isGrabCall, ih]

/-- Across a whole search-loop run, the grab calls are the snapshot's
monitor list repeated once per iteration: the same list, in the same
order, every iteration. -/
theorem searchLoop_grab_trace (env : Env) (t : List LTpl) (m : List Monitor) (th : ℚ)
    (rt tmo : Int) : ∀ (fuel k : Nat) (r : Bool) (evs : List Event),
    searchLoop env t m th rt tmo k fuel = some (r, evs) →
    ∃ n, evs.filter Event.isGrabCall = (List.replicate n (m.map Event.grabCall)).flatten := by
  intro fuel
  induction fuel with
  | zero =>
    intro k r evs h
    rw [searchLoop] at h
    exact Option.noConfusion h
  | succ nn ih =>
    intro k r evs h
    by_cases hE : env.elapsedMs k < (tmo : ℚ)
    · by_cases hOK : th ≤ (monLoop (env.grab k) env.matchT t m ⟨-1, none⟩).1.val ∧
          ((monLoop (env.grab k) env.matchT t m ⟨-1, none⟩).1.cand).isSome = true
      · obtain ⟨c, hc⟩ := Option.isSome_iff_exists.1 hOK.2
        rw [searchLoop_success env t m th rt tmo k nn c hE hOK.1 hc] at h
        rw [Option.some.injEq, Prod.mk.injEq] at h
        obtain ⟨-, hevs⟩ := h
        subst hevs
        refine ⟨1, ?_⟩
        simp [List.filter_append, monLoop_grab_trace, doActions_no_grab, Event.isGrabCall]
      · rw [searchLoop_retry env t m th rt tmo k nn hE hOK] at h
        obtain ⟨p, hp, hmap⟩ := Option.map_eq_some'.1 h
        obtain ⟨r1, evs1⟩ := p
        rw [Prod.mk.injEq] at hmap
        obtain ⟨hr, hevs⟩ := hmap
        subst hr
        subst hevs
        obtain ⟨n, hn⟩ := ih (k + 1) r1 evs1 hp
        refine ⟨n + 1, ?_⟩
        simp [List.filter_append, monLoop_grab_trace, Event.isGrabCall, hn,
          List.replicate_succ]
    · rw [searchLoop_expired env t m th rt tmo k nn hE] at h
      rw [Option.some.injEq, Prod.mk.injEq] at h
      obtain ⟨-, hevs⟩ := h
      subst hevs
      exact ⟨0, rfl⟩

/-- C9: the monitor list is snapshotted exactly once, before the first
iteration.  Two environments that agree on everything except their
monitor-enumeration histories — as long as the histories agree at the
snapshot instant 0 — produce identical search calls (the list is never
re-read); and across the whole run the grab calls are exactly the
snapshot list repeated once per iteration, unchanged, in order. -/
theorem monitor_snapshot_once (e1 e2 : Env) (images : List String) (th : ℚ)
    (rt tmo : Int) (fuel : Nat)
    (himread : e1.imread = e2.imread) (hgrab : e1.grab = e2.grab)
    (hmatch : e1.matchT = e2.matchT) (helapsed : e1.elapsedMs = e2.elapsedMs)
    (hmove : e1.moveOk = e2.moveOk) (hclick : e1.clickOk = e2.clickOk)
    (hpress : e1.pressOk = e2.pressOk)
    (henum : e1.enumMonitors 0 = e2.enumMonitors 0) :
    find_and_click e1 images th rt tmo fuel = find_and_click e2 images th rt tmo fuel ∧
    (∀ (r : Bool) (evs : List Event), find_and_click e1 images th rt tmo fuel = some (r, evs) →
      ∃ n, evs.filter Event.isGrabCall
        = (List.replicate n ((e1.enumMonitors 0).map Event.grabCall)).flatten) := by
  constructor
  · simp only [find_and_click, himread, henum,
      searchLoop_congr e1 e2 hgrab hmatch helapsed hmove hclick hpress]
  · intro r evs h
    simp only [find_and_click] at h
    by_cases hempty : (load_templates e1.imread images).1.isEmpty
    · rw [if_pos hempty, Option.some.injEq, Prod.mk.injEq] at h
      obtain ⟨-, hevs⟩ := h
      subst hevs
      refine ⟨0, ?_⟩
      simp [Event.isGrabCall, List.filter_append, load_warns_no_grab]
    · rw [if_neg hempty] at h
      obtain ⟨p, hp, hmap⟩ := Option.map_eq_some'.1 h
      obtain ⟨r1, evs1⟩ := p
      rw [Prod.mk.injEq] at hmap
      obtain ⟨-, hevs⟩ := hmap
      subst hevs
      obtain ⟨n, hn⟩ := searchLoop_grab_trace e1 (load_templates e1.imread images).1
        (e1.enumMonitors 0) th rt tmo fuel 0 r1 evs1 hp
      refine ⟨n, ?_⟩
      simp [Event.isGrabCall, List.filter_append, load_warns_no_grab, hn]

/-- C9 witness: `envHit` against a drifting enumeration history that
agrees with it only at the snapshot instant. -/
theorem monitor_snapshot_once_witness :
    find_and_click envHit ["a.png"] 1 120 6000 2 = find_and_click envDrift ["a.png"] 1 120 6000 2 ∧
    (∀ (r : Bool) (evs : List Event),
      find_and_click envHit ["a.png"] 1 120 6000 2 = some (r, evs) →
      ∃ n, evs.filter Event.isGrabCall
        = (List.replicate n ((envHit.enumMonitors 0).map Event.grabCall)).flatten) :=
  monitor_snapshot_once envHit envDrift ["a.png"] 1 120 6000 2
    rfl rfl rfl rfl rfl rfl rfl (by decide)

end GuiAuto
